import Mathlib

/-!
Shallow embedding of `chatbotJSVercel/api/app.py`, a small Flask backend that
forwards questions and QA summaries to an external generative-language model.

Modelling choices:
* JSON values are the inductive `Json`; Python truthiness is `Json.truthy`.
* A request body is `Option Json`: `none` models an absent or unparsable body
  (Flask's `request.get_json(silent=True)` returns `None` there).
* The external model (`model.generate_content`) is a parameter
  `oracle : String → Except String ModelResp`; `Except.error e` models the call
  raising an exception whose `str` is `e`.  Each helper also returns the list of
  prompts actually sent upstream, so "number of upstream calls" is observable.
* A route produces an `Outcome`: either an HTTP response (`resp status body calls`)
  built by the route's own code, or `uncaught msg calls` for an exception that
  escapes the route handler (Flask then produces its generic 500, not the
  route's JSON).
* Python `str.strip` is `pyStrip`; Python `a or b` on strings is `pyOrStr`.
-/

namespace ChatBot

/-- JSON values as delivered by Flask's `request.get_json`.  Numbers are
modelled as integers (no claim involves fractional numbers). -/
inductive Json where
  | null
  | bool (b : Bool)
  | num (n : Int)
  | str (s : String)
  | arr (elems : List Json)
  | obj (fields : List (String × Json))

/-- Python truthiness of a JSON value (`bool(x)`). -/
def Json.truthy : Json → Bool
  | .null => false
  | .bool b => b
  | .num n => n != 0
  | .str s => s != ""
  | .arr es => !es.isEmpty
  | .obj fs => !fs.isEmpty

/-- Python type name of a JSON value, as it appears in `AttributeError` texts. -/
def Json.pyTypeName : Json → String
  | .null => "NoneType"
  | .bool _ => "bool"
  | .num _ => "int"
  | .str _ => "str"
  | .arr _ => "list"
  | .obj _ => "dict"

/-- Single-quote character (words around it avoid literal apostrophes). -/
def squote : Char := Char.ofNat 39

/-- Double-quote character. -/
def dquote : Char := Char.ofNat 34

/-- Escaping of one character inside a Python string repr that uses quote
character `qc` (backslash, the quote itself, and the common control escapes). -/
def escChar (qc : Char) (c : Char) : String :=
  if c = '\\' then String.mk ['\\', '\\']
  else if c = qc then String.mk ['\\', qc]
  else if c = Char.ofNat 10 then String.mk ['\\', 'n']
  else if c = Char.ofNat 13 then String.mk ['\\', 'r']
  else if c = Char.ofNat 9 then String.mk ['\\', 't']
  else String.mk [c]

/-- Python `repr` of a string over the printable range: single quotes unless the
string contains a single quote and no double quote. -/
def strRepr (s : String) : String :=
  let qc := if s.data.contains squote && !(s.data.contains dquote) then dquote else squote
  String.mk [qc] ++ String.join (s.data.map (escChar qc)) ++ String.mk [qc]

mutual

/-- Python `repr` of a JSON value (used by `str` on containers). -/
def Json.pyRepr : Json → String
  | .null => "None"
  | .bool true => "True"
  | .bool false => "False"
  | .num n => toString n
  | .str s => strRepr s
  | .arr es => "[" ++ String.intercalate ", " (reprElems es) ++ "]"
  | .obj fs => "\x7b" ++ String.intercalate ", " (reprFields fs) ++ "\x7d"

/-- Reprs of the elements of a JSON array. -/
def reprElems : List Json → List String
  | [] => []
  | e :: es => e.pyRepr :: reprElems es

/-- Reprs of the fields of a JSON object. -/
def reprFields : List (String × Json) → List String
  | [] => []
  | (k, v) :: fs => (strRepr k ++ ": " ++ v.pyRepr) :: reprFields fs

end

/-- Python `str` of a JSON value, as used by f-string interpolation. -/
def Json.pyStr : Json → String
  | .str s => s
  | v => v.pyRepr

/-- Python `dict.get` on a JSON object: value of the last binding of key `k`
(JSON parsing keeps the last duplicate), or `none`. -/
def getField (fs : List (String × Json)) (k : String) : Option Json :=
  ((fs.filter (fun kv => kv.fst == k)).getLast?).map (fun kv => kv.snd)

/-- Whitespace predicate backing Python `str.strip` (ASCII whitespace). -/
def pyIsSpace (c : Char) : Bool := c.isWhitespace

/-- Strip leading and trailing whitespace characters from a character list. -/
def stripChars (cs : List Char) : List Char :=
  ((cs.dropWhile pyIsSpace).reverse.dropWhile pyIsSpace).reverse

/-- Python `str.strip()`. -/
def pyStrip (s : String) : String := String.mk (stripChars s.data)

/-- Python `a or b` for strings: `b` when `a` is falsy (empty), else `a`. -/
def pyOrStr (a b : String) : String := if a = "" then b else a

/-- Text of the `AttributeError` raised when attribute `attr` is read on `v`. -/
def noAttrMsg (v : Json) (attr : String) : String :=
  String.mk [squote] ++ v.pyTypeName ++ String.mk [squote] ++
    " object has no attribute " ++ String.mk [squote] ++ attr ++ String.mk [squote]

/-- Result object of `model.generate_content`: `text` is its `text` attribute,
with `none` covering both a missing attribute and a `None` value (the code's
`getattr(resp, "text", "") or ""` collapses both to the empty string). -/
structure ModelResp where
  text : Option String

/-- The external model call: maps a prompt to either a response or a raised
exception text. -/
abbrev Oracle := String → Except String ModelResp

/-- Fixed scaffold of the ask prompt, from `generate_markdown_answer`:
the prompt is this scaffold with the question appended. -/
def answerPromptScaffold : String :=
  "Responda no contexto acima **em Markdown**. " ++
  "Use títulos curtos (##), listas quando fizer sentido e blocos de código com a linguagem quando houver trechos de código. " ++
  "\nPergunta do usuário: "

/-- Fallback answer when the model text is empty after stripping. -/
def askFallback : String := "Não consegui gerar resposta."

/-- Fallback summary when the model text is empty after stripping. -/
def summaryFallback : String := "Não foi possível gerar o resumo."

/-- Embedding of `generate_markdown_answer(question)`.  Returns the outcome of
the helper together with the list of prompts sent upstream. -/
def generate_markdown_answer (oracle : Oracle) (question : String) :
    Except String String × List String :=
  let prompt := answerPromptScaffold ++ question
  match oracle prompt with
  | .error e => (.error e, [prompt])
  | .ok resp =>
    let answer := pyStrip (resp.text.getD "")
    (.ok (pyOrStr answer askFallback), [prompt])

/-- Initial lines of the summary prompt (`linhas` before the loop in
`summarize_markdown`). -/
def summarizeHeaderLines : List String :=
  ["Resuma de forma objetiva as interações abaixo.",
   "• Traga ATÉ 8 tópicos (bullets).",
   "• Termine com \x27Próximas ações:\x27 e 3 itens.",
   "",
   "Conteúdo para resumir:"]

/-- Embedding of `(item or {})` followed by `.get(...)` requiring a dict: a
falsy item becomes the empty dict; a truthy non-dict raises `AttributeError`. -/
def itemFields (item : Json) : Except String (List (String × Json)) :=
  let it := if item.truthy then item else Json.obj []
  match it with
  | .obj fs => .ok fs
  | v => .error (noAttrMsg v "get")

/-- Embedding of the enumeration loop of `summarize_markdown`: for item number
`i` onwards, the two lines `- Pergunta i: q` and `- Resposta i: a` per item,
with `q`/`a` read by `.get("q", "")` / `.get("a", "")` and rendered by `str`. -/
def qaLinhas (i : Nat) : List Json → Except String (List String)
  | [] => .ok []
  | item :: rest =>
    match itemFields item with
    | .error e => .error e
    | .ok fs =>
      let qs := Json.pyStr ((getField fs "q").getD (Json.str ""))
      let ans := Json.pyStr ((getField fs "a").getD (Json.str ""))
      match qaLinhas (i + 1) rest with
      | .error e => .error e
      | .ok more =>
        .ok (("- Pergunta " ++ toString i ++ ": " ++ qs) ::
             ("- Resposta " ++ toString i ++ ": " ++ ans) :: more)

/-- Embedding of `summarize_markdown(qa)`: build the lines, join with newlines,
call the model once, strip its text and fall back when blank.  An exception
while building the lines propagates before any upstream call. -/
def summarize_markdown (oracle : Oracle) (qa : List Json) :
    Except String String × List String :=
  match qaLinhas 1 qa with
  | .error e => (.error e, [])
  | .ok itemLines =>
    let prompt := String.intercalate "\n" (summarizeHeaderLines ++ itemLines)
    match oracle prompt with
    | .error e => (.error e, [prompt])
    | .ok resp =>
      let resumo := pyStrip (resp.text.getD "")
      (.ok (pyOrStr resumo summaryFallback), [prompt])

/-- Outcome of handling one request: either an HTTP response produced by the
route code itself, or an exception escaping the handler (Flask's generic 500).
`calls` records the prompts sent upstream while handling the request. -/
inductive Outcome where
  | resp (status : Nat) (body : Json) (calls : List String)
  | uncaught (message : String) (calls : List String)

/-- Prompts sent upstream during the request. -/
def Outcome.calls : Outcome → List String
  | .resp _ _ cs => cs
  | .uncaught _ cs => cs

/-- Status code of the route's own response, `none` for an escaped exception. -/
def Outcome.statusOf : Outcome → Option Nat
  | .resp s _ _ => some s
  | .uncaught _ _ => none

/-- Embedding of `request.get_json(silent=True) or {}`: an absent/unparsable
body and every falsy JSON value become the empty object. -/
def coerceBody : Option Json → Json
  | none => Json.obj []
  | some v => if v.truthy then v else Json.obj []

/-- Error body of the ask route's 400 response. -/
def askErrBody : Json :=
  Json.obj [("error", Json.str ("Campo \x27question\x27 é obrigatório"))]

/-- Error body of the summarize route's 400 response. -/
def qaErrBody : Json :=
  Json.obj [("error", Json.str ("Campo \x27qa\x27 deve ser uma lista"))]

/-- Embedding of the `/api/ask` route.  `data.get` requires a dict (else an
`AttributeError` escapes), `or ""` turns a missing or falsy question into the
empty string, `.strip()` requires a string, a blank question yields 400, and
any exception from the helper is caught and reported as a 500 JSON error. -/
def ask (oracle : Oracle) (rawBody : Option Json) : Outcome :=
  match coerceBody rawBody with
  | .obj fs =>
    let got := (getField fs "question").getD Json.null
    match (if got.truthy then got else Json.str "") with
    | .str s =>
      let question := pyStrip s
      if question = "" then
        .resp 400 askErrBody []
      else
        match generate_markdown_answer oracle question with
        | (.ok answer, cs) => .resp 200 (Json.obj [("answer", Json.str answer)]) cs
        | (.error e, cs) =>
          .resp 500 (Json.obj [("error", Json.str ("Erro ao gerar resposta: " ++ e))]) cs
    | v => .uncaught (noAttrMsg v "strip") []
  | v => .uncaught (noAttrMsg v "get") []

/-- Embedding of the `/api/summarize` route.  The guard implements
`if not qa or not isinstance(qa, list)`: for a list, `not qa` fires exactly on
the empty list; any non-list value fails `isinstance` and also yields 400. -/
def summarize (oracle : Oracle) (rawBody : Option Json) : Outcome :=
  match coerceBody rawBody with
  | .obj fs =>
    match (getField fs "qa").getD Json.null with
    | .arr items =>
      if items.isEmpty then
        .resp 400 qaErrBody []
      else
        match summarize_markdown oracle items with
        | (.ok summary, cs) => .resp 200 (Json.obj [("summary", Json.str summary)]) cs
        | (.error e, cs) =>
          .resp 500 (Json.obj [("error", Json.str ("Erro ao gerar resumo: " ++ e))]) cs
    | _ => .resp 400 qaErrBody []
  | v => .uncaught (noAttrMsg v "get") []

/-- Embedding of the `/api/health` route: a fixed success payload, no upstream
call, no failure path. -/
def health : Outcome := Outcome.resp 200 (Json.obj [("ok", Json.bool true)]) []

/-- Message of the fatal startup error raised when the API key is missing. -/
def startupErrMsg : String :=
  "Defina GEMINI_API_KEY nas variáveis de ambiente (.env local ou Vercel Settings)."

/-- Embedding of the startup check: `API_KEY = os.getenv("GEMINI_API_KEY")`
followed by `if not API_KEY: raise RuntimeError(...)`.  `not API_KEY` is true
exactly when the variable is unset (`None`) or set to the empty string. -/
def startupApiKey (env : String → Option String) : Except String String :=
  let apiKey := (env "GEMINI_API_KEY").getD ""
  if apiKey = "" then .error startupErrMsg else .ok apiKey

/-- Substring test: `needle` occurs contiguously in `hay`. -/
def strContains (hay needle : String) : Bool :=
  (List.range (hay.length + 1)).any (fun i => needle.data.isPrefixOf (hay.data.drop i))

/-- Concrete oracle used by closed witnesses: always answers "resposta". -/
def demoOracle : Oracle := fun _ => .ok ⟨some "resposta"⟩

/-- Oracle whose call always raises the exception text `e`. -/
def failOracle (e : String) : Oracle := fun _ => .error e

/-- A QA pair as the frontend sends it: an object with fields `q` and `a`. -/
def pairObj (q a : String) : Json :=
  Json.obj [("q", Json.str q), ("a", Json.str a)]

/-- Specification-style rendering of the enumerated QA lines: pair number `i`
(starting at 1) contributes `- Pergunta i: q` then `- Resposta i: a`, in input
order. -/
def enumQaLines (pairs : List (String × String)) : List String :=
  (List.enumFrom 1 pairs).flatMap (fun x =>
    ["- Pergunta " ++ toString x.fst ++ ": " ++ x.snd.fst,
     "- Resposta " ++ toString x.fst ++ ": " ++ x.snd.snd])

end ChatBot

namespace ChatBot

/-- Dropping while a predicate holds never lengthens a list. -/
theorem dropWhile_length_le (p : α → Bool) (l : List α) :
    (l.dropWhile p).length ≤ l.length := by
  induction l with
  | nil => simp
  | cons a l ih =>
    cases hpa : p a
    · rw [List.dropWhile_cons_of_neg (by simp [hpa])]
    · rw [List.dropWhile_cons_of_pos hpa]
      exact Nat.le_trans ih (Nat.le_succ _)

/-- A nonempty fixed point of `dropWhile p` starts with an element refuting `p`. -/
theorem dropWhile_fix_head (p : α → Bool) (a : α) (t : List α)
    (h : List.dropWhile p (a :: t) = a :: t) : p a = false := by
  cases hpa : p a
  · rfl
  · exfalso
    rw [List.dropWhile_cons_of_pos hpa] at h
    have hle := dropWhile_length_le p t
    rw [h] at hle
    simp at hle

/-- `dropWhile` is idempotent. -/
theorem dropWhile_self (p : α → Bool) (l : List α) :
    (l.dropWhile p).dropWhile p = l.dropWhile p := by
  induction l with
  | nil => rfl
  | cons a l ih =>
    cases hpa : p a
    · rw [List.dropWhile_cons_of_neg (by simp [hpa]),
        List.dropWhile_cons_of_neg (by simp [hpa])]
    · rw [List.dropWhile_cons_of_pos hpa]
      exact ih

/-- A prefix of a `dropWhile p` fixed point is itself a fixed point. -/
theorem dropWhile_eq_self_of_prefix (p : α → Bool) (pre l : List α)
    (hpre : pre <+: l) (hl : l.dropWhile p = l) : pre.dropWhile p = pre := by
  cases pre with
  | nil => rfl
  | cons a t =>
    obtain ⟨r, hr⟩ := hpre
    have hpa : p a = false := by
      apply dropWhile_fix_head p a (t ++ r)
      rw [show a :: (t ++ r) = (a :: t) ++ r from rfl, hr]
      exact hl
    exact List.dropWhile_cons_of_neg (by simp [hpa])

/-- Stripping both ends is idempotent at the character-list level. -/
theorem stripChars_idem (cs : List Char) :
    stripChars (stripChars cs) = stripChars cs := by
  unfold stripChars
  have hA : (cs.dropWhile pyIsSpace).dropWhile pyIsSpace = cs.dropWhile pyIsSpace :=
    dropWhile_self _ _
  have hpre : ((cs.dropWhile pyIsSpace).reverse.dropWhile pyIsSpace).reverse <+:
      cs.dropWhile pyIsSpace := by
    have h2 := List.reverse_prefix.mpr
      (List.dropWhile_suffix (l := (cs.dropWhile pyIsSpace).reverse) pyIsSpace)
    simpa using h2
  have h1 := dropWhile_eq_self_of_prefix pyIsSpace _ _ hpre hA
  rw [h1, List.reverse_reverse, dropWhile_self]

/-- Python strip is idempotent. -/
theorem pyStrip_idem (s : String) : pyStrip (pyStrip s) = pyStrip s :=
  congrArg String.mk (stripChars_idem s.data)

/-- The value of `stripped-or-fallback` is never blank when the fallback is
not blank: either it is already stripped and nonempty, or it is the fallback. -/
theorem pyStrip_pyOrStr_ne (x fb : String) (hfb : pyStrip fb ≠ "") :
    pyStrip (pyOrStr (pyStrip x) fb) ≠ "" := by
  unfold pyOrStr
  by_cases h : pyStrip x = ""
  · rw [if_pos h]
    exact hfb
  · rw [if_neg h, pyStrip_idem]
    exact h

/-- Coercing a present object body is the identity, whether or not it is empty
(the empty object is falsy and is replaced by the empty object itself). -/
theorem coerce_obj (fs : List (String × Json)) :
    coerceBody (some (Json.obj fs)) = Json.obj fs := by
  cases fs <;> rfl

/-- Claim C8: every GET to the health endpoint returns the fixed payload with
`ok = true`, performs no upstream call and has no failure path (the embedding
of the route is a single fixed response). -/
theorem health_always_ok :
    health = Outcome.resp 200 (Json.obj [("ok", Json.bool true)]) [] := rfl

/-- Claim C7: startup fails with the fatal configuration error exactly when the
`GEMINI_API_KEY` variable is unset or empty (`not API_KEY`), and otherwise
proceeds with the key; an `Except.error` models the `RuntimeError` raised
before the app ever serves traffic. -/
theorem startup_requires_api_key (env : String → Option String) :
    (startupApiKey env = Except.error startupErrMsg ↔
      (env "GEMINI_API_KEY").getD "" = "") ∧
    (startupApiKey env = Except.ok ((env "GEMINI_API_KEY").getD "") ↔
      (env "GEMINI_API_KEY").getD "" ≠ "") := by
  by_cases h : (env "GEMINI_API_KEY").getD "" = "" <;> simp [startupApiKey, h]

end ChatBot

namespace ChatBot

/-- Stripping the empty string yields the empty string. -/
theorem pyStrip_empty : pyStrip "" = "" := rfl

/-- Claim C1 counterexample: a POST to summarize with body `qa := []` is
rejected with a 400 client error (Python `not qa` is true for the empty list),
contradicting the claim that the request is accepted. -/
theorem summarize_empty_qa_rejected :
    summarize demoOracle (some (Json.obj [("qa", Json.arr [])])) =
      Outcome.resp 400 qaErrBody [] ∧
    (summarize demoOracle (some (Json.obj [("qa", Json.arr [])]))).statusOf =
      some 400 := ⟨rfl, rfl⟩

/-- Claim C1 (amended): a POST to summarize with body `qa := []` is rejected
with 400 and zero upstream calls, because the guard `not qa` already fires on
the empty list; the prompt-building helper itself, applied to the empty list,
does produce a prompt consisting of the instruction header with no enumerated
items (its single upstream prompt is exactly the joined header lines). -/
theorem summarize_empty_qa_amended (oracle : Oracle) :
    summarize oracle (some (Json.obj [("qa", Json.arr [])])) =
      Outcome.resp 400 qaErrBody [] ∧
    (summarize_markdown oracle []).snd =
      [String.intercalate "\n" summarizeHeaderLines] := by
  refine ⟨rfl, ?_⟩
  have happ : summarizeHeaderLines ++ ([] : List String) = summarizeHeaderLines :=
    List.append_nil _
  simp only [summarize_markdown, qaLinhas, happ]
  cases oracle (String.intercalate "\n" summarizeHeaderLines) <;> rfl

/-- Claim C5: a POST to ask whose body object lacks the `question` key, or maps
it to a string that is blank after stripping, yields the 400 client error with
zero upstream calls. -/
theorem ask_blank_question_400 (oracle : Oracle) (fs : List (String × Json))
    (h : getField fs "question" = none ∨
         ∃ s, getField fs "question" = some (Json.str s) ∧ pyStrip s = "") :
    ask oracle (some (Json.obj fs)) = Outcome.resp 400 askErrBody [] := by
  rcases h with h | ⟨s, hgf, hs⟩
  · simp [ask, coerce_obj, h, Json.truthy, pyStrip_empty]
  · by_cases hse : s = ""
    · simp [ask, coerce_obj, hgf, hse, Json.truthy, pyStrip_empty]
    · simp [ask, coerce_obj, hgf, Json.truthy, hse, hs]

/-- Witness for C5 at the concrete body with no `question` key. -/
theorem ask_blank_question_400_w :
    ask demoOracle (some (Json.obj [])) = Outcome.resp 400 askErrBody [] :=
  ask_blank_question_400 demoOracle [] (Or.inl rfl)

/-- Claim C6: a POST to summarize whose body object lacks the `qa` key or maps
it to a non-list value yields the 400 client error with zero upstream calls. -/
theorem summarize_bad_qa_400 (oracle : Oracle) (fs : List (String × Json))
    (h : getField fs "qa" = none ∨
         ∃ v, getField fs "qa" = some v ∧ ∀ es, v ≠ Json.arr es) :
    summarize oracle (some (Json.obj fs)) = Outcome.resp 400 qaErrBody [] := by
  rcases h with h | ⟨v, hgf, hv⟩
  · simp [summarize, coerce_obj, h]
  · cases v with
    | arr es => exact absurd rfl (hv es)
    | null => simp [summarize, coerce_obj, hgf]
    | bool b => simp [summarize, coerce_obj, hgf]
    | num n => simp [summarize, coerce_obj, hgf]
    | str s => simp [summarize, coerce_obj, hgf]
    | obj fs2 => simp [summarize, coerce_obj, hgf]

/-- Witness for C6 at the concrete body mapping `qa` to a string. -/
theorem summarize_bad_qa_400_w :
    summarize demoOracle (some (Json.obj [("qa", Json.str "x")])) =
      Outcome.resp 400 qaErrBody [] :=
  summarize_bad_qa_400 demoOracle [("qa", Json.str "x")]
    (Or.inr ⟨Json.str "x", rfl, fun _ h => Json.noConfusion h⟩)

/-- Claim C10 counterexample: a body that is valid JSON but a truthy non-object
(the array holding the number 1) is not treated as the empty object: `data.get`
raises an `AttributeError` that escapes both route handlers, so neither route
returns its 400 client error. -/
theorem truthy_nonobject_body_not_400 :
    ask demoOracle (some (Json.arr [Json.num 1])) =
      Outcome.uncaught (noAttrMsg (Json.arr [Json.num 1]) "get") [] ∧
    summarize demoOracle (some (Json.arr [Json.num 1])) =
      Outcome.uncaught (noAttrMsg (Json.arr [Json.num 1]) "get") [] ∧
    (ask demoOracle (some (Json.arr [Json.num 1]))).statusOf ≠ some 400 ∧
    (summarize demoOracle (some (Json.arr [Json.num 1]))).statusOf ≠ some 400 :=
  ⟨rfl, rfl, by decide, by decide⟩

/-- Claim C10 (amended): an absent or unparsable body, and every falsy JSON
body (null, false, 0, the empty string, the empty array, the empty object), is
replaced by the empty object, so both routes answer with their 400 client
error exactly as for a missing field; a truthy non-object body instead raises
an uncaught `AttributeError` (the framework's 500, not the route's 400). -/
theorem absent_or_falsy_body_400 (oracle : Oracle) (body : Option Json)
    (h : body = none ∨ ∃ v, body = some v ∧ v.truthy = false) :
    ask oracle body = Outcome.resp 400 askErrBody [] ∧
    summarize oracle body = Outcome.resp 400 qaErrBody [] := by
  have hco : coerceBody body = Json.obj [] := by
    rcases h with h | ⟨v, hb, hv⟩
    · rw [h]; rfl
    · rw [hb]; simp [coerceBody, hv]
  constructor
  · simp [ask, hco, getField, Json.truthy, pyStrip_empty]
  · simp [summarize, hco, getField]

/-- Witness for the amended C10 at the absent body. -/
theorem absent_or_falsy_body_400_w :
    ask demoOracle none = Outcome.resp 400 askErrBody [] ∧
    summarize demoOracle none = Outcome.resp 400 qaErrBody [] :=
  absent_or_falsy_body_400 demoOracle none (Or.inl rfl)

end ChatBot

namespace ChatBot

/-- Unfolding of the enumeration loop on a list of string QA pairs: it returns
the indexed rendering of the pairs, in input order, numbered from `i`. -/
theorem qaLinhas_map (i : Nat) (pairs : List (String × String)) :
    qaLinhas i (pairs.map (fun p => pairObj p.fst p.snd)) =
      Except.ok ((List.enumFrom i pairs).flatMap (fun x =>
        ["- Pergunta " ++ toString x.fst ++ ": " ++ x.snd.fst,
         "- Resposta " ++ toString x.fst ++ ": " ++ x.snd.snd])) := by
  induction pairs generalizing i with
  | nil => rfl
  | cons p rest ih =>
    have h1 : qaLinhas i ((p :: rest).map (fun p => pairObj p.fst p.snd)) =
        match qaLinhas (i + 1) (rest.map (fun p => pairObj p.fst p.snd)) with
        | .error e => .error e
        | .ok more =>
          .ok (("- Pergunta " ++ toString i ++ ": " ++ p.fst) ::
               ("- Resposta " ++ toString i ++ ": " ++ p.snd) :: more) := rfl
    rw [h1, ih, List.enumFrom_cons, List.flatMap_cons]
    rfl

/-- The summarization helper sends exactly one upstream prompt, the header
followed by the built lines, whenever line building succeeds. -/
theorem summarize_markdown_calls (oracle : Oracle) (qa : List Json)
    (lines : List String) (h : qaLinhas 1 qa = Except.ok lines) :
    (summarize_markdown oracle qa).snd =
      [String.intercalate "\n" (summarizeHeaderLines ++ lines)] := by
  rcases hor : oracle (String.intercalate "\n" (summarizeHeaderLines ++ lines)) with e | resp <;>
    simp only [summarize_markdown, h, hor]

/-- The answer helper sends exactly one upstream prompt: the fixed scaffold
with the question appended. -/
theorem generate_calls (oracle : Oracle) (question : String) :
    (generate_markdown_answer oracle question).snd =
      [answerPromptScaffold ++ question] := by
  rcases hor : oracle (answerPromptScaffold ++ question) with e | resp <;>
    simp only [generate_markdown_answer, hor]

/-- A string appended on the right occurs as a substring. -/
theorem strContains_append_right (a b : String) : strContains (a ++ b) b = true := by
  unfold strContains
  apply List.any_eq_true.mpr
  refine ⟨a.length, List.mem_range.mpr ?_, ?_⟩
  · rw [String.length_append]
    omega
  · have hdrop : (a ++ b).data.drop a.length = b.data := by
      rw [String.data_append]
      exact List.drop_left a.data b.data
    rw [hdrop]
    exact List.isPrefixOf_iff_prefix.mpr (List.prefix_refl _)

/-- Claim C2: for every list of N question/answer pairs, the summarization
helper sends exactly one prompt, consisting of the fixed instruction header
(at most 8 bullet topics, closing next-actions section of 3 items) followed by
exactly the N enumerated question-line/answer-line pairs numbered 1..N in
input order. -/
theorem summarize_prompt_enumerates (oracle : Oracle) (pairs : List (String × String)) :
    (summarize_markdown oracle (pairs.map (fun p => pairObj p.fst p.snd))).snd =
      [String.intercalate "\n" (summarizeHeaderLines ++ enumQaLines pairs)] :=
  summarize_markdown_calls oracle _ (enumQaLines pairs) (qaLinhas_map 1 pairs)

end ChatBot

namespace ChatBot

set_option maxRecDepth 10000 in
/-- Claim C3 counterexample: for the question string "zzz " (trailing space,
non-empty after trimming), the single upstream prompt is the scaffold followed
by the trimmed question "zzz", and the original string "zzz " does not occur
verbatim anywhere in that prompt. -/
theorem ask_untrimmed_not_verbatim :
    (ask demoOracle (some (Json.obj [("question", Json.str "zzz ")]))).calls =
      [answerPromptScaffold ++ "zzz"] ∧
    strContains (answerPromptScaffold ++ "zzz") "zzz " = false := by
  refine ⟨rfl, ?_⟩
  decide

/-- Claim C3 (amended): for every question string whose trimmed form is
non-empty, a POST to ask with that question issues exactly one upstream call;
its prompt is the fixed instructional scaffold followed by the trimmed
question, which therefore occurs in the prompt verbatim (and equals the
original question whenever the latter carries no surrounding whitespace). -/
theorem ask_one_call_trimmed_verbatim (oracle : Oracle) (q : String)
    (h : pyStrip q ≠ "") :
    (ask oracle (some (Json.obj [("question", Json.str q)]))).calls =
      [answerPromptScaffold ++ pyStrip q] ∧
    strContains (answerPromptScaffold ++ pyStrip q) (pyStrip q) = true := by
  refine ⟨?_, strContains_append_right _ _⟩
  have hq0 : q ≠ "" := fun h0 => h (by rw [h0]; rfl)
  have hg : getField [("question", Json.str q)] "question" = some (Json.str q) := rfl
  have htr : (Json.str q).truthy = true := by simp [Json.truthy, hq0]
  have hcs := generate_calls oracle (pyStrip q)
  rcases hgen : generate_markdown_answer oracle (pyStrip q) with ⟨res, cs⟩
  rw [hgen] at hcs
  simp only [ask, coerce_obj, hg, Option.getD_some, htr, if_true, h, hgen]
  cases res <;> simpa using hcs

set_option maxRecDepth 10000 in
/-- Witness for the amended C3 at the concrete question "zzz ". -/
theorem ask_one_call_trimmed_verbatim_w :
    (ask demoOracle (some (Json.obj [("question", Json.str "zzz ")]))).calls =
      [answerPromptScaffold ++ pyStrip "zzz "] ∧
    strContains (answerPromptScaffold ++ pyStrip "zzz ") (pyStrip "zzz ") = true :=
  ask_one_call_trimmed_verbatim demoOracle "zzz " (by decide)

end ChatBot

namespace ChatBot

/-- Claim C4: for any request that passes input validation on either route, an
upstream call that raises an exception with text `e` is caught at the route
boundary: the route returns a 500 JSON response whose error message embeds
`e`, rather than an escaped exception (`Outcome.uncaught`); the model is pure
per request, so the failure is request-local by construction. -/
theorem upstream_failure_500 (e q : String) (fs fs2 : List (String × Json))
    (hq : getField fs "question" = some (Json.str q)) (hqb : pyStrip q ≠ "")
    (items : List Json) (hqa : getField fs2 "qa" = some (Json.arr items))
    (hne : items ≠ []) (lines : List String)
    (hlines : qaLinhas 1 items = Except.ok lines) :
    ask (failOracle e) (some (Json.obj fs)) =
      Outcome.resp 500
        (Json.obj [("error", Json.str ("Erro ao gerar resposta: " ++ e))])
        [answerPromptScaffold ++ pyStrip q] ∧
    summarize (failOracle e) (some (Json.obj fs2)) =
      Outcome.resp 500
        (Json.obj [("error", Json.str ("Erro ao gerar resumo: " ++ e))])
        [String.intercalate "\n" (summarizeHeaderLines ++ lines)] := by
  have hq0 : q ≠ "" := fun h0 => hqb (by rw [h0]; rfl)
  constructor
  · have htr : (Json.str q).truthy = true := by simp [Json.truthy, hq0]
    have hgen : generate_markdown_answer (failOracle e) (pyStrip q) =
        (.error e, [answerPromptScaffold ++ pyStrip q]) := rfl
    simp only [ask, coerce_obj, hq, Option.getD_some, htr, if_true, hqb, hgen]
    simp
  · have hnemp : items.isEmpty = false := by
      cases items with
      | nil => exact absurd rfl hne
      | cons a t => rfl
    have hsum : summarize_markdown (failOracle e) items =
        (.error e, [String.intercalate "\n" (summarizeHeaderLines ++ lines)]) := by
      unfold summarize_markdown
      rw [hlines]
      rfl
    simp only [summarize, coerce_obj, hqa, Option.getD_some, hnemp, hsum]
    simp

set_option maxRecDepth 10000 in
/-- Witness for C4 at a concrete failing oracle and valid bodies. -/
theorem upstream_failure_500_w :
    ask (failOracle "boom") (some (Json.obj [("question", Json.str "x")])) =
      Outcome.resp 500
        (Json.obj [("error", Json.str ("Erro ao gerar resposta: " ++ "boom"))])
        [answerPromptScaffold ++ pyStrip "x"] ∧
    summarize (failOracle "boom") (some (Json.obj [("qa", Json.arr [pairObj "p" "r"])])) =
      Outcome.resp 500
        (Json.obj [("error", Json.str ("Erro ao gerar resumo: " ++ "boom"))])
        [String.intercalate "\n"
          (summarizeHeaderLines ++ ["- Pergunta 1: p", "- Resposta 1: r"])] :=
  upstream_failure_500 "boom" "x" [("question", Json.str "x")]
    [("qa", Json.arr [pairObj "p" "r"])] rfl (by decide) [pairObj "p" "r"] rfl
    (by simp) ["- Pergunta 1: p", "- Resposta 1: r"] rfl

/-- Claim C9: whenever the answer helper or the summary helper returns
successfully, the returned string is neither empty nor whitespace-only: its
stripped form is non-empty, because a blank upstream text is replaced by the
fixed non-empty fallback message and a non-blank upstream text is returned
already stripped. -/
theorem helper_results_nonblank (oracle : Oracle) (question : String)
    (qa : List Json) (a s : String) (ca cs : List String)
    (ha : generate_markdown_answer oracle question = (Except.ok a, ca))
    (hs : summarize_markdown oracle qa = (Except.ok s, cs)) :
    pyStrip a ≠ "" ∧ pyStrip s ≠ "" := by
  constructor
  · rcases hor : oracle (answerPromptScaffold ++ question) with e | resp
    · simp only [generate_markdown_answer, hor] at ha
      exact absurd (congrArg Prod.fst ha) (by simp)
    · simp only [generate_markdown_answer, hor] at ha
      have hval : pyOrStr (pyStrip (resp.text.getD "")) askFallback = a := by
        have := congrArg Prod.fst ha
        simpa using this
      rw [← hval]
      exact pyStrip_pyOrStr_ne _ _ (by decide)
  · rcases hql : qaLinhas 1 qa with e2 | lines
    · simp only [summarize_markdown, hql] at hs
      exact absurd (congrArg Prod.fst hs) (by simp)
    · rcases hor : oracle (String.intercalate "\n" (summarizeHeaderLines ++ lines)) with e | resp
      · simp only [summarize_markdown, hql, hor] at hs
        exact absurd (congrArg Prod.fst hs) (by simp)
      · simp only [summarize_markdown, hql, hor] at hs
        have hval : pyOrStr (pyStrip (resp.text.getD "")) summaryFallback = s := by
          have := congrArg Prod.fst hs
          simpa using this
        rw [← hval]
        exact pyStrip_pyOrStr_ne _ _ (by decide)

set_option maxRecDepth 10000 in
/-- Witness for C9 at the demo oracle: both helpers succeed and the success
values strip to a non-empty string. -/
theorem helper_results_nonblank_w :
    pyStrip "resposta" ≠ "" ∧ pyStrip "resposta" ≠ "" :=
  helper_results_nonblank demoOracle "x" [] "resposta" "resposta"
    [answerPromptScaffold ++ "x"] [String.intercalate "\n" summarizeHeaderLines]
    rfl rfl

end ChatBot
